import Mathlib

/-!
Verification of the slide/content modeling pipeline of the presentation
agent: the deck model builder (`slide_generator.py`), the layout advisor
(`layout_suggester.py`), the chart descriptor builder
(`chart_generator.py`) and the deck orchestrator
(`presentation_agent.py`).

Python values stored inside slides are modelled by the inductive `Val`
(strings, ints, None, lists, tuples, dicts as insertion-ordered
association lists); Python dicts over string keys are association lists
`List (String × Val)` with the usual first-match lookup and
update-in-place-or-append assignment.
-/

/-- Model of a Python value as it occurs in a slide dictionary. -/
inductive Val where
  | str : String → Val
  | int : Int → Val
  | vnone : Val
  | list : List Val → Val
  | tuple : List Val → Val
  | dict : List (String × Val) → Val

/-- Python dict with string keys, as an insertion-ordered association list. -/
abbrev Dict := List (String × Val)

/-- Lookup `d[k]`, `d.get(k)`: value at the first matching key. -/
def dGet (d : Dict) (k : String) : Option Val :=
  match d with
  | [] => Option.none
  | (k2, v) :: rest => if k2 = k then some v else dGet rest k

/-- Python `d.get(k, dflt)`. -/
def dGetD (d : Dict) (k : String) (dflt : Val) : Val :=
  (dGet d k).getD dflt

/-- Python `k in d`. -/
def dHas (d : Dict) (k : String) : Bool :=
  match d with
  | [] => false
  | (k2, _) :: rest => k2 = k || dHas rest k

/-- Python `d[k] = v`: replace the value at an existing key in place,
otherwise append the new binding. -/
def dSet (d : Dict) (k : String) (v : Val) : Dict :=
  match d with
  | [] => [(k, v)]
  | (k2, v2) :: rest => if k2 = k then (k2, v) :: rest else (k2, v2) :: dSet rest k v

/-- Python whitespace characters recognised by `str.strip` / `str.split`. -/
def isPyWs (c : Char) : Bool :=
  c = ' ' || c = '\t' || c = '\n' || c = '\x0d' || c = '\x0b' || c = '\x0c'

/-- Python `str.strip()` on a character list. -/
def pyStripL (s : List Char) : List Char :=
  ((s.dropWhile isPyWs).reverse.dropWhile isPyWs).reverse

/-- Python `str.strip()`. -/
def pyStrip (s : String) : String :=
  ⟨pyStripL s.data⟩

/-- Python `str.split('\n')` on a character list: keeps empty fields,
so the result is always non-empty. -/
def splitNLData : List Char → List (List Char)
  | [] => [[]]
  | c :: cs =>
    if c = '\n' then [] :: splitNLData cs
    else
      match splitNLData cs with
      | [] => [[c]]
      | l :: ls => (c :: l) :: ls

/-- Python `str.split('\n')`. -/
def pySplitNL (s : String) : List String :=
  (splitNLData s.data).map (fun l => ⟨l⟩)

/-- Python `str.startswith('#')`. -/
def startsHash (s : String) : Bool :=
  match s.data with
  | [] => false
  | c :: _ => c = '#'

/-- Python `str.upper()` restricted to ASCII case mapping, as used on the
ASCII enum names of the source. -/
def pyUpper (s : String) : String :=
  ⟨s.data.map Char.toUpper⟩

/-- Python `sep.join(xs)`. -/
def pyJoin (sep : String) : List String → String
  | [] => ""
  | [x] => x
  | x :: xs => x ++ sep ++ pyJoin sep xs

/-- Python `str.split()` (no argument): split on runs of whitespace,
discarding empty fields; accumulator-based worker. -/
def pySplitWsGo : List Char → List Char → List (List Char)
  | [], acc => if acc.isEmpty then [] else [acc.reverse]
  | c :: cs, acc =>
    if isPyWs c then
      if acc.isEmpty then pySplitWsGo cs [] else acc.reverse :: pySplitWsGo cs []
    else pySplitWsGo cs (c :: acc)

/-- Python `str.split()` (no argument). -/
def pySplitWs (s : String) : List String :=
  (pySplitWsGo s.data []).map (fun l => ⟨l⟩)

/-! ## Deck model builder (`src/agent/slide_generator.py`) -/

/-- Embeds `SlideGenerator._parse_section_to_slide(section, slide_id)`:
first line of the stripped section text becomes the title, every later
line that is non-blank after stripping and does not start with `#`
becomes a bullet, and an empty bullet list falls back to the whole
original section text. -/
def parseSectionToSlide (sect : String) (slide_id : Int) : Dict :=
  let lines := pySplitNL (pyStrip sect)
  let title := pyStrip (lines.headD "")
  let bullet_points := lines.tail.filterMap (fun l =>
    let t := pyStrip l
    if t ≠ "" && !(startsHash t) then some t else Option.none)
  [("id", Val.int slide_id),
   ("title", Val.str title),
   ("type", Val.str "content"),
   ("content", Val.dict
     [("heading", Val.str title),
      ("bullet_points", Val.list
        ((if bullet_points.isEmpty then [sect] else bullet_points).map Val.str))]),
   ("layout", Val.str "bullet_points")]

/-- Embeds `SlideGenerator.generate_slides_from_text(title, sections)`:
a title slide with id 0 followed by one content slide per section,
ids counted from 1 (`enumerate(sections, 1)`). -/
def generateSlidesFromText (title : String) (sections : List String) : List Dict :=
  let title_slide : Dict :=
    [("id", Val.int 0),
     ("title", Val.str title),
     ("type", Val.str "title"),
     ("content", Val.dict
       [("heading", Val.str title),
        ("subheading", Val.str "Auto-generated Presentation")]),
     ("layout", Val.str "title_slide")]
  title_slide :: (sections.enum.map (fun p => parseSectionToSlide p.2 (p.1 + 1)))

/-! ## Python `str()` / `repr()` of slide values, for statistics -/

/-- Escape one character of a Python string repr quoted with `q`
(backslash, the quote character and the common control characters;
other characters are assumed printable). -/
def reprEsc (q : Char) (c : Char) : List Char :=
  if c = '\\' then ['\\', '\\']
  else if c = q then ['\\', q]
  else if c = '\n' then ['\\', 'n']
  else if c = '\x0d' then ['\\', 'r']
  else if c = '\t' then ['\\', 't']
  else [c]

/-- Python `repr` of a string: quoted with `\x27`, or with `"` when the
string contains `\x27` but no `"`. -/
def pyReprStr (s : String) : String :=
  let q := if s.data.contains '\x27' && !(s.data.contains '"') then '"' else '\x27'
  ⟨q :: (s.data.map (reprEsc q)).flatten ++ [q]⟩

mutual

/-- Python `repr` of a slide value. -/
def reprV : Val → String
  | Val.str s => pyReprStr s
  | Val.int n => toString n
  | Val.vnone => "None"
  | Val.list l => "[" ++ reprVList l ++ "]"
  | Val.tuple [v] => "(" ++ reprV v ++ ",)"
  | Val.tuple l => "(" ++ reprVList l ++ ")"
  | Val.dict d => "\x7b" ++ reprVDict d ++ "\x7d"

/-- Comma-separated reprs of the elements of a list or tuple. -/
def reprVList : List Val → String
  | [] => ""
  | [v] => reprV v
  | v :: vs => reprV v ++ ", " ++ reprVList vs

/-- Comma-separated `key: value` reprs of the entries of a dict. -/
def reprVDict : List (String × Val) → String
  | [] => ""
  | [(k, v)] => pyReprStr k ++ ": " ++ reprV v
  | (k, v) :: ds => pyReprStr k ++ ": " ++ reprV v ++ ", " ++ reprVDict ds

end

/-- Python `str()` of a slide value: the string itself for strings,
`repr` for every container, mirroring `str(slide.get('content', ''))`. -/
def pyStrV : Val → String
  | Val.str s => s
  | v => reprV v

mutual

/-- Structural equality of slide values, as Python `==` on these
value shapes (used for the dict keyed by `slide.get('type', 'unknown')`). -/
def vbeq : Val → Val → Bool
  | Val.str a, Val.str b => a = b
  | Val.int a, Val.int b => a = b
  | Val.vnone, Val.vnone => true
  | Val.list a, Val.list b => vbeqList a b
  | Val.tuple a, Val.tuple b => vbeqList a b
  | Val.dict a, Val.dict b => vbeqDict a b
  | _, _ => false

/-- Elementwise equality of value lists. -/
def vbeqList : List Val → List Val → Bool
  | [], [] => true
  | a :: as2, b :: bs => vbeq a b && vbeqList as2 bs
  | _, _ => false

/-- Entrywise equality of dict association lists. -/
def vbeqDict : List (String × Val) → List (String × Val) → Bool
  | [], [] => true
  | (k, v) :: as2, (k2, v2) :: bs => k = k2 && vbeq v v2 && vbeqDict as2 bs
  | _, _ => false

end

/-- Python `m[k] = m.get(k, 0) + 1` on a `Val`-keyed counting dict
modelled as an insertion-ordered association list. -/
def typeCountAdd (m : List (Val × Nat)) (k : Val) : List (Val × Nat) :=
  match m with
  | [] => [(k, 1)]
  | (k2, n) :: rest =>
    if vbeq k2 k then (k2, n + 1) :: rest else (k2, n) :: typeCountAdd rest k

/-- Result record of `SlideGenerator.get_slide_statistics`. -/
structure Stats where
  total_slides : Nat
  slide_types : List (Val × Nat)
  average_content_length : ℚ

/-- Loop body of `SlideGenerator.get_slide_statistics`: counts the
slide under its `type` key and adds the word count of
`str(slide.get('content', ''))` to the running total. -/
def statsStep (acc : List (Val × Nat) × Nat) (slide : Dict) : List (Val × Nat) × Nat :=
  let slide_type := dGetD slide "type" (Val.str "unknown")
  (typeCountAdd acc.1 slide_type,
   acc.2 + (pySplitWs (pyStrV (dGetD slide "content" (Val.str "")))).length)

/-- Embeds `SlideGenerator.get_slide_statistics(slides)`: folds
`statsStep` over the slides, then divides the word-count total by the
slide count, guarding the empty deck with 0. Python float division is
modelled exactly in `ℚ`. -/
def getSlideStatistics (slides : List Dict) : Stats :=
  let total_slides := slides.length
  let r := slides.foldl statsStep ([], 0)
  ⟨total_slides, r.1,
   if total_slides > 0 then (r.2 : ℚ) / (total_slides : ℚ) else 0⟩

/-- Embeds `SlideGenerator.generate_speaker_notes(slide)`: a header line
from the slide title, a bullet block when the content dict carries
`bullet_points` (only list payloads occur in this pipeline and only they
are modelled), and a chart reminder line, joined by newlines. -/
def generateSpeakerNotes (slide : Dict) : String :=
  let notes1 :=
    if dHas slide "title" then ["Slide: " ++ pyStrV (dGetD slide "title" Val.vnone) ++ "\n"]
    else []
  let notes2 :=
    match dGetD slide "content" (Val.dict []) with
    | Val.dict c =>
      if dHas c "bullet_points" then
        "Key points to discuss:" ::
          (match dGetD c "bullet_points" Val.vnone with
           | Val.list pts => pts.map (fun p => "  - " ++ pyStrV p)
           | _ => [])
      else []
    | _ => []
  let notes3 :=
    if dHas slide "chart" then ["\nChart/Visualization: Present and explain the data trends."]
    else []
  pyJoin "\n" (notes1 ++ notes2 ++ notes3)

/-! ## Layout advisor (`src/templates/layout_suggester.py`) -/

/-- Embeds `LayoutSuggester._load_layouts()`: the static catalog of the
six layouts with their labels, elements and zone geometry. -/
def loadLayouts : Dict :=
  [("title_slide", Val.dict
     [("name", Val.str "Title Slide"),
      ("description", Val.str "Large title and subtitle"),
      ("elements", Val.list [Val.str "title", Val.str "subtitle"]),
      ("zones", Val.dict
        [("title", Val.dict [("position", Val.str "top"), ("size", Val.str "large")]),
         ("subtitle", Val.dict [("position", Val.str "center"), ("size", Val.str "medium")])])]),
   ("bullet_points", Val.dict
     [("name", Val.str "Bullet Points"),
      ("description", Val.str "Title with bullet points"),
      ("elements", Val.list [Val.str "title", Val.str "bullet_points"]),
      ("zones", Val.dict
        [("title", Val.dict [("position", Val.str "top"), ("size", Val.str "medium")]),
         ("content", Val.dict [("position", Val.str "center"), ("size", Val.str "large")])])]),
   ("chart_slide", Val.dict
     [("name", Val.str "Chart/Visualization"),
      ("description", Val.str "Title with chart or image"),
      ("elements", Val.list [Val.str "title", Val.str "chart"]),
      ("zones", Val.dict
        [("title", Val.dict [("position", Val.str "top"), ("size", Val.str "small")]),
         ("chart", Val.dict [("position", Val.str "center"), ("size", Val.str "large")])])]),
   ("two_column", Val.dict
     [("name", Val.str "Two Column"),
      ("description", Val.str "Title with two columns of content"),
      ("elements", Val.list [Val.str "title", Val.str "left_column", Val.str "right_column"]),
      ("zones", Val.dict
        [("title", Val.dict [("position", Val.str "top"), ("size", Val.str "small")]),
         ("left", Val.dict [("position", Val.str "left"), ("size", Val.str "medium")]),
         ("right", Val.dict [("position", Val.str "right"), ("size", Val.str "medium")])])]),
   ("image_and_text", Val.dict
     [("name", Val.str "Image and Text"),
      ("description", Val.str "Image on one side, text on the other"),
      ("elements", Val.list [Val.str "title", Val.str "image", Val.str "text"]),
      ("zones", Val.dict
        [("title", Val.dict [("position", Val.str "top"), ("size", Val.str "small")]),
         ("image", Val.dict [("position", Val.str "left"), ("size", Val.str "large")]),
         ("text", Val.dict [("position", Val.str "right"), ("size", Val.str "large")])])]),
   ("blank", Val.dict
     [("name", Val.str "Blank"),
      ("description", Val.str "Completely blank slide"),
      ("elements", Val.list []),
      ("zones", Val.dict [])])]

/-- Names of the catalog entries, in catalog order. -/
def layoutNames : List String := loadLayouts.map Prod.fst

/-- Embeds `LayoutSuggester.suggest_layout(slide)`: type check, then
chart check, then content-shape checks on a dict content, with
`bullet_points` as the default. -/
def suggestLayout (slide : Dict) : String :=
  let slide_type := dGetD slide "type" (Val.str "content")
  let content := dGetD slide "content" (Val.dict [])
  let isTitle : Bool := match slide_type with
    | Val.str s => s = "title"
    | _ => false
  if isTitle then "title_slide"
  else if dHas slide "chart" then "chart_slide"
  else
    match content with
    | Val.dict c =>
      if dHas c "left_column" && dHas c "right_column" then "two_column"
      else if dHas c "image" && dHas c "text" then "image_and_text"
      else if dHas c "bullet_points" then "bullet_points"
      else "bullet_points"
    | _ => "bullet_points"

/-! ## Chart descriptor builder (`src/visualizations/chart_generator.py`) -/

/-- Member names of the `ChartType` enum, targets of
`ChartType[chart_type.upper()]`. -/
def chartTypeNames : List String :=
  ["BAR", "LINE", "PIE", "SCATTER", "HISTOGRAM", "BOX", "AREA"]

/-- Embeds `ChartGenerator._load_chart_styles()`. -/
def chartStyles : Dict :=
  [("default", Val.dict
     [("colors", Val.list
        [Val.str "#1f77b4", Val.str "#ff7f0e", Val.str "#2ca02c",
         Val.str "#d62728", Val.str "#9467bd"]),
      ("font_size", Val.int 12),
      ("dpi", Val.int 100),
      ("figsize", Val.tuple [Val.int 10, Val.int 6])]),
   ("business", Val.dict
     [("colors", Val.list
        [Val.str "#003366", Val.str "#006699", Val.str "#0099cc",
         Val.str "#00ccff", Val.str "#ccffff"]),
      ("font_size", Val.int 14),
      ("dpi", Val.int 150),
      ("figsize", Val.tuple [Val.int 12, Val.int 7])]),
   ("minimal", Val.dict
     [("colors", Val.list
        [Val.str "#000000", Val.str "#404040", Val.str "#808080",
         Val.str "#c0c0c0", Val.str "#ffffff"]),
      ("font_size", Val.int 11),
      ("dpi", Val.int 100),
      ("figsize", Val.tuple [Val.int 10, Val.int 6])])]

/-- Embeds `ChartGenerator.generate_chart(chart_type, data, theme, title)`
with no extra keyword parameters: the `ChartType[chart_type.upper()]`
lookup raises `KeyError` for an unknown name, caught and turned into an
empty dict result; otherwise the style is
`chart_styles.get(theme, chart_styles['default'])` and the descriptor
dict is assembled. -/
def generateChart (chart_type : String) (data : Val) (theme : String) (title : String) : Val :=
  if chartTypeNames.contains (pyUpper chart_type) then
    let style := dGetD chartStyles theme (dGetD chartStyles "default" (Val.dict []))
    Val.dict
      [("type", Val.str chart_type),
       ("title", Val.str title),
       ("data", data),
       ("theme", Val.str theme),
       ("style", style),
       ("kwargs", Val.dict [])]
  else Val.dict []

/-! ## Deck orchestrator (`src/agent/presentation_agent.py`) -/

/-- Deck-relevant state of a `PresentationAgent`: theme, slide sequence
and metadata (the collaborator components are stateless). -/
structure AgentState where
  theme : String
  slides : List Dict
  metadata : Dict

/-- Embeds `PresentationAgent.__init__(theme)`: empty deck. -/
def initAgent (theme : String) : AgentState :=
  ⟨theme, [], []⟩

/-- Python list indexing `xs[i]` for `int` i: non-negative indices from
the front, negative indices from the back, `IndexError` otherwise. -/
def pyIdx (len : Nat) (i : Int) : Option Nat :=
  if 0 ≤ i then
    if i < (len : Int) then some i.toNat else Option.none
  else
    if 0 ≤ (len : Int) + i then some ((len : Int) + i).toNat else Option.none

/-- Embeds `PresentationAgent.add_chart(slide_index, chart_type, data)`.
The result pairs the new state with the logged signal (`false` for the
out-of-range `logger.error` early return, `true` for the
`logger.info` success path); `Option.none` models an uncaught
`IndexError` from `self.slides[slide_index]` at an index below
`-len(slides)`. -/
def addChart (st : AgentState) (slide_index : Int) (chart_type : String) (data : Val) :
    Option (AgentState × Bool) :=
  if (st.slides.length : Int) ≤ slide_index then some (st, false)
  else
    let chart := generateChart chart_type data st.theme ""
    match pyIdx st.slides.length slide_index with
    | Option.none => Option.none
    | some i =>
      some ({ st with slides := st.slides.set i (dSet (st.slides.getD i []) "chart" chart) },
            true)

/-- Member names of the `ExportFormat` enum, targets of
`ExportFormat[format_type.upper()]`. -/
def exportFormatNames : List String :=
  ["POWERPOINT", "PDF", "GOOGLE_SLIDES", "HTML"]

/-- Embeds `PresentationAgent.export(format_type, output_path)`: the
`ExportFormat[format_type.upper()]` lookup raises `KeyError` for an
unknown name, caught and turned into a `False` return before any
exporter runs. The out-of-scope exporter collaborators
(`self.exporters`, one per format, so `exporters.get` never misses) are
abstracted by the oracle `renderOk` giving the boolean result of
`exporter.export(...)` on the selected format. -/
def exportPres (st : AgentState) (format_type : String) (renderOk : String → Bool) :
    Bool × AgentState :=
  if exportFormatNames.contains (pyUpper format_type) then
    (renderOk (pyUpper format_type), st)
  else (false, st)

/-- Embeds `PresentationAgent.create_from_text(title, sections)` with no
`data_source` (the fetched data is unused by the source anyway): set the
title metadata, generate the slides, overwrite each slide's layout with
the advisor's suggestion, and optionally attach speaker notes. -/
def createFromText (st : AgentState) (title : String) (sections : List String)
    (speaker_notes : Bool) : AgentState :=
  let metadata := dSet st.metadata "title" (Val.str title)
  let slides0 := generateSlidesFromText title sections
  let slides1 := slides0.map (fun s => dSet s "layout" (Val.str (suggestLayout s)))
  let slides2 :=
    if speaker_notes then
      slides1.map (fun s => dSet s "speaker_notes" (Val.str (generateSpeakerNotes s)))
    else slides1
  { st with metadata := metadata, slides := slides2 }

/-! ## General dictionary lemmas -/

/-- Assignment then lookup of the same key yields the assigned value. -/
theorem dGet_dSet_self (d : Dict) (k : String) (v : Val) :
    dGet (dSet d k v) k = some v := by
  induction d with
  | nil => simp [dSet, dGet]
  | cons p rest ih =>
    obtain ⟨k2, v2⟩ := p
    by_cases h : k2 = k <;> simp [dSet, dGet, h, ih]

/-- Assignment leaves lookups of other keys unchanged. -/
theorem dGet_dSet_ne (d : Dict) (k k2 : String) (v : Val) (h : k2 ≠ k) :
    dGet (dSet d k2 v) k = dGet d k := by
  induction d with
  | nil => simp [dSet, dGet, h]
  | cons p rest ih =>
    obtain ⟨k3, v3⟩ := p
    by_cases h2 : k3 = k2 <;> by_cases h3 : k3 = k <;>
      simp_all [dSet, dGet]

/-- Lookup of a key not among the entry keys fails. -/
theorem dGet_eq_none_of_not_mem (d : Dict) (k : String)
    (h : k ∉ d.map Prod.fst) : dGet d k = Option.none := by
  induction d with
  | nil => rfl
  | cons p rest ih =>
    obtain ⟨k2, v2⟩ := p
    simp only [List.map_cons, List.mem_cons] at h
    push_neg at h
    have hne : ¬ k2 = k := fun hh => h.1 hh.symm
    simp [dGet, hne, ih h.2]

/-! ## Claim theorems -/

/-- C1: for every title and every non-empty section list of length N,
`generate_slides_from_text` returns exactly N+1 slides; the first has
id 0, type `title` and content `{heading: title, subheading:
'Auto-generated Presentation'}`, and the remaining slides carry
ids 1..N in input-section order. -/
theorem c1_generate_slides_shape (title : String) (sections : List String)
    (_hne : sections ≠ []) :
    (generateSlidesFromText title sections).length = sections.length + 1 ∧
    dGet ((generateSlidesFromText title sections).headD []) "id" = some (Val.int 0) ∧
    dGet ((generateSlidesFromText title sections).headD []) "type" = some (Val.str "title") ∧
    dGet ((generateSlidesFromText title sections).headD []) "content" =
      some (Val.dict [("heading", Val.str title),
                      ("subheading", Val.str "Auto-generated Presentation")]) ∧
    ∀ k, k < sections.length →
      dGet ((generateSlidesFromText title sections).getD (k + 1) []) "id" =
        some (Val.int (k + 1)) := by
  refine ⟨?_, rfl, rfl, rfl, ?_⟩
  · simp [generateSlidesFromText]
  · intro k hk
    have hlen : k < (sections.enum.map
        (fun p => parseSectionToSlide p.2 (p.1 + 1))).length := by
      simpa using hk
    rw [generateSlidesFromText]
    simp only [List.getD_cons_succ]
    rw [List.getD_eq_getElem _ _ hlen]
    simp [List.getElem_map, List.getElem_enum, parseSectionToSlide, dGet]

/-- Witness for C1 at title "T", sections ["A", "B"]. -/
theorem c1_witness :
    (generateSlidesFromText "T" ["A", "B"]).length = 2 + 1 ∧
    dGet ((generateSlidesFromText "T" ["A", "B"]).headD []) "id" = some (Val.int 0) ∧
    dGet ((generateSlidesFromText "T" ["A", "B"]).headD []) "type" = some (Val.str "title") ∧
    dGet ((generateSlidesFromText "T" ["A", "B"]).headD []) "content" =
      some (Val.dict [("heading", Val.str "T"),
                      ("subheading", Val.str "Auto-generated Presentation")]) ∧
    ∀ k, k < (["A", "B"] : List String).length →
      dGet ((generateSlidesFromText "T" ["A", "B"]).getD (k + 1) []) "id" =
        some (Val.int (k + 1)) :=
  c1_generate_slides_shape "T" ["A", "B"] (by decide)

/-- C3: `add_chart` with a slide index at or above the slide count
leaves the slide sequence unchanged (the whole state is returned as is)
and signals the failure through the logged error rather than a crash. -/
theorem c3_add_chart_out_of_range (st : AgentState) (slide_index : Int)
    (chart_type : String) (data : Val)
    (h : (st.slides.length : Int) ≤ slide_index) :
    addChart st slide_index chart_type data = some (st, false) := by
  simp [addChart, h]

/-- Witness for C3 on the empty deck at index 0. -/
theorem c3_witness :
    addChart (initAgent "default") 0 "bar" Val.vnone = some (initAgent "default", false) :=
  c3_add_chart_out_of_range (initAgent "default") 0 "bar" Val.vnone (by decide)

/-- C5: when every line of the stripped section text after the first is
blank after stripping or starts with `#` after stripping, the content
slide's bullet list is exactly the one-element list holding the original
section string verbatim. -/
theorem c5_fallback_bullet (sect : String) (slide_id : Int)
    (h : ∀ l ∈ (pySplitNL (pyStrip sect)).tail,
      pyStrip l = "" ∨ startsHash (pyStrip l) = true) :
    ∃ c, dGet (parseSectionToSlide sect slide_id) "content" = some (Val.dict c) ∧
      dGet c "bullet_points" = some (Val.list [Val.str sect]) := by
  have hnil : (pySplitNL (pyStrip sect)).tail.filterMap (fun l =>
      let t := pyStrip l
      if t ≠ "" && !(startsHash t) then some t else Option.none) = [] := by
    rw [List.filterMap_eq_nil_iff]
    intro l hl
    rcases h l hl with h1 | h1 <;> simp [h1]
  refine ⟨[("heading", Val.str (pyStrip ((pySplitNL (pyStrip sect)).headD ""))),
          ("bullet_points", Val.list [Val.str sect])], ?_, ?_⟩
  · simp only [parseSectionToSlide]
    rw [hnil]
    simp [dGet]
  · simp [dGet]

/-- Witness for C5 on a section whose body lines are one blank line and
one `#` comment line. -/
theorem c5_witness :
    ∃ c, dGet (parseSectionToSlide "Intro\n   \n# note" 5) "content" = some (Val.dict c) ∧
      dGet c "bullet_points" = some (Val.list [Val.str "Intro\n   \n# note"]) :=
  c5_fallback_bullet "Intro\n   \n# note" 5 (by decide)

/-- C6: `export` with a format name whose upper-cased form is none of
the four `ExportFormat` member names returns `False` (the caught
`KeyError` path) and leaves the state unchanged, whatever the exporter
collaborators would have answered. -/
theorem c6_export_unknown_format (st : AgentState) (format_type : String)
    (renderOk : String → Bool)
    (h : pyUpper format_type ∉ exportFormatNames) :
    exportPres st format_type renderOk = (false, st) := by
  simp [exportPres, h]

/-- Witness for C6 at format "keynote". -/
theorem c6_witness :
    exportPres (initAgent "default") "keynote" (fun _ => true) =
      (false, initAgent "default") :=
  c6_export_unknown_format (initAgent "default") "keynote" (fun _ => true) (by decide)

/-- C7: a theme that is not a key of the chart style table combined with
a valid chart type yields a non-empty chart descriptor whose resolved
style is the `default` style entry, never a failure. -/
theorem c7_unknown_theme_default_style (chart_type : String) (data : Val)
    (theme title : String)
    (hct : chartTypeNames.contains (pyUpper chart_type) = true)
    (hth : theme ∉ chartStyles.map Prod.fst) :
    ∃ cfg, generateChart chart_type data theme title = Val.dict cfg ∧
      cfg ≠ [] ∧ dGet cfg "style" = dGet chartStyles "default" := by
  have hnone : dGet chartStyles theme = Option.none :=
    dGet_eq_none_of_not_mem chartStyles theme hth
  refine ⟨[("type", Val.str chart_type), ("title", Val.str title), ("data", data),
          ("theme", Val.str theme),
          ("style", dGetD chartStyles theme (dGetD chartStyles "default" (Val.dict []))),
          ("kwargs", Val.dict [])], ?_, ?_, ?_⟩
  · unfold generateChart
    rw [hct]
    simp
  · simp
  · show some (dGetD chartStyles theme (dGetD chartStyles "default" (Val.dict []))) =
      dGet chartStyles "default"
    rw [dGetD, hnone]
    rfl

/-- Witness for C7: the spec's end-to-end example, a PIE chart with
labels/values data and theme "unknown_theme". -/
theorem c7_witness :
    ∃ cfg, generateChart "PIE"
        (Val.dict [("labels", Val.list [Val.str "A", Val.str "B"]),
                   ("values", Val.list [Val.int 1, Val.int 2])])
        "unknown_theme" "" = Val.dict cfg ∧
      cfg ≠ [] ∧ dGet cfg "style" = dGet chartStyles "default" :=
  c7_unknown_theme_default_style "PIE"
    (Val.dict [("labels", Val.list [Val.str "A", Val.str "B"]),
               ("values", Val.list [Val.int 1, Val.int 2])])
    "unknown_theme" "" (by decide) (by decide)

/-! ## Claim C2: layout suggestion as an ordered rule match -/

/-- Spec-side predicate: the slide's declared type (defaulting to
`content`) is the string `title`. -/
def slideTypeIsTitle (slide : Dict) : Bool :=
  match dGetD slide "type" (Val.str "content") with
  | Val.str s => s = "title"
  | _ => false

/-- Spec-side predicate: the slide's content is a dict carrying the
given key. -/
def contentHas (slide : Dict) (k : String) : Bool :=
  match dGetD slide "content" (Val.dict []) with
  | Val.dict c => dHas c k
  | _ => false

/-- Modelled from the spec: the ordered rule table of §4.2, each rule a
predicate on the slide paired with the layout name it yields. -/
def layoutRulesSpec : List ((Dict → Bool) × String) :=
  [(slideTypeIsTitle, "title_slide"),
   (fun s => dHas s "chart", "chart_slide"),
   (fun s => contentHas s "left_column" && contentHas s "right_column", "two_column"),
   (fun s => contentHas s "image" && contentHas s "text", "image_and_text"),
   (fun s => contentHas s "bullet_points", "bullet_points")]

/-- Modelled from the spec: deterministic first-match evaluation of an
ordered rule table, with a default for when no rule fires. -/
def firstMatch : List ((Dict → Bool) × String) → String → Dict → String
  | [], dflt, _ => dflt
  | (p, name) :: rest, dflt, s => if p s then name else firstMatch rest dflt s

/-- C2: `suggest_layout` is exactly the first-match evaluation of the
spec's ordered rule table with default `bullet_points`, and rule 1
dominates: a slide of declared type `title` always yields `title_slide`
regardless of any other content or attached chart. -/
theorem c2_suggest_layout_rules (slide : Dict) :
    suggestLayout slide = firstMatch layoutRulesSpec "bullet_points" slide ∧
    (dGetD slide "type" (Val.str "content") = Val.str "title" →
      suggestLayout slide = "title_slide") := by
  constructor
  · rcases ht : dGetD slide "type" (Val.str "content") with ts | ti | _ | tl | tt | td <;>
      rcases hc : dGetD slide "content" (Val.dict []) with cs | ci | _ | cl | ct2 | cd <;>
      simp only [suggestLayout, firstMatch, layoutRulesSpec, slideTypeIsTitle,
        contentHas, ht, hc] <;>
      split_ifs <;> simp_all
  · intro h
    simp [suggestLayout, h]

/-- Witness for C2's rule-priority hypothesis: a title-typed slide that
also carries a chart and two-column content still maps to
`title_slide`. -/
theorem c2_witness :
    suggestLayout
      [("type", Val.str "title"), ("chart", Val.dict []),
       ("content", Val.dict [("left_column", Val.str "l"), ("right_column", Val.str "r")])] =
      "title_slide" :=
  (c2_suggest_layout_rules
    [("type", Val.str "title"), ("chart", Val.dict []),
     ("content", Val.dict [("left_column", Val.str "l"), ("right_column", Val.str "r")])]).2
    rfl

/-! ## Claim C4: unknown chart type through `add_chart` -/

/-- C4 counterexample: on a one-slide deck, `add_chart(0, "donut")` with
the unknown chart type does NOT leave the slide sequence unchanged — the
empty descriptor `{}` returned by the failed `generate_chart` is still
assigned to the slide's `chart` key. -/
theorem c4_counterexample :
    (addChart ⟨"default", [[("id", Val.int 0)]], []⟩ 0 "donut" Val.vnone).map
        (fun r => r.1.slides) ≠
      some ([[("id", Val.int 0)]] : List Dict) := by
  intro h
  have h2 := congrArg (Option.map (fun l => dHas (l.headD []) "chart")) h
  have h3 : (some true : Option Bool) = some false := h2
  simp at h3

/-- C4 amended: with an in-range index and a chart type whose upper-cased
form is none of the seven `ChartType` member names, `generate_chart`
fails without a crash and returns the empty descriptor, and `add_chart`
attaches that empty dict under the targeted slide's `chart` key — so the
targeted slide changes, while every other slide is untouched. -/
theorem c4_unknown_chart_type (st : AgentState) (slide_index : Int)
    (chart_type : String) (data : Val)
    (h0 : 0 ≤ slide_index) (h1 : slide_index < (st.slides.length : Int))
    (h2 : chartTypeNames.contains (pyUpper chart_type) = false) :
    generateChart chart_type data st.theme "" = Val.dict [] ∧
    addChart st slide_index chart_type data =
      some ({ st with slides := (st.slides.set slide_index.toNat
        (dSet (st.slides.getD slide_index.toNat []) "chart" (Val.dict []))) }, true) ∧
    ∀ j, j ≠ slide_index.toNat →
      (st.slides.set slide_index.toNat
        (dSet (st.slides.getD slide_index.toNat []) "chart" (Val.dict []))).getD j [] =
        st.slides.getD j [] := by
  have hg : generateChart chart_type data st.theme "" = Val.dict [] := by
    unfold generateChart
    rw [h2]
    simp
  have hnle : ¬ (st.slides.length : Int) ≤ slide_index := by omega
  refine ⟨hg, ?_, ?_⟩
  · unfold addChart
    rw [if_neg hnle, hg]
    simp [pyIdx, h0, h1]
  · intro j hj
    simp [List.getD_eq_getElem?_getD, List.getElem?_set_ne (fun hh => hj hh.symm)]

/-- Witness for C4's amended theorem on a one-slide deck with chart type
"donut". -/
theorem c4_witness :
    generateChart "donut" Val.vnone
        (AgentState.theme ⟨"default", [[("id", Val.int 0)]], []⟩) "" = Val.dict [] ∧
    addChart ⟨"default", [[("id", Val.int 0)]], []⟩ 0 "donut" Val.vnone =
      some ((⟨"default",
        ([[("id", Val.int 0)]] : List Dict).set (Int.toNat 0)
          (dSet (([[("id", Val.int 0)]] : List Dict).getD (Int.toNat 0) []) "chart"
            (Val.dict [])), []⟩ : AgentState), true) ∧
    ∀ j, j ≠ Int.toNat 0 →
      (([[("id", Val.int 0)]] : List Dict).set (Int.toNat 0)
        (dSet (([[("id", Val.int 0)]] : List Dict).getD (Int.toNat 0) []) "chart"
          (Val.dict []))).getD j [] =
        ([[("id", Val.int 0)]] : List Dict).getD j [] :=
  c4_unknown_chart_type ⟨"default", [[("id", Val.int 0)]], []⟩ 0 "donut" Val.vnone
    (by decide) (by decide) (by decide)

/-! ## Claims C8, C9, C10 -/

/-- Word count of the textual serialization of a slide's content, the
per-slide summand of the statistics average. -/
def contentWordCount (slide : Dict) : Nat :=
  (pySplitWs (pyStrV (dGetD slide "content" (Val.str "")))).length

/-- Word-count component of the statistics fold: the running total after
any prefix is the starting total plus the summed per-slide counts. -/
theorem statsStep_foldl_snd (slides : List Dict) (acc : List (Val × Nat) × Nat) :
    (slides.foldl statsStep acc).2 = acc.2 + (slides.map contentWordCount).sum := by
  induction slides generalizing acc with
  | nil => simp
  | cons s rest ih =>
    simp only [List.foldl_cons, List.map_cons, List.sum_cons, ih, statsStep, contentWordCount]
    omega

/-- C9: statistics of the empty slide list is `total_slides = 0`,
no type counts, `average_content_length = 0`, with no division fault;
in general the total is the slide count and the average is the summed
content-serialization word count divided by the slide count (in `ℚ`,
where the empty case gives 0/0 = 0, matching the guard). -/
theorem c9_statistics_average :
    getSlideStatistics ([] : List Dict) = ⟨0, [], 0⟩ ∧
    ∀ slides : List Dict,
      (getSlideStatistics slides).total_slides = slides.length ∧
      (getSlideStatistics slides).average_content_length =
        ((slides.map contentWordCount).sum : ℚ) / (slides.length : ℚ) := by
  refine ⟨rfl, ?_⟩
  intro slides
  refine ⟨rfl, ?_⟩
  show (if slides.length > 0 then
      ((slides.foldl statsStep ([], 0)).2 : ℚ) / (slides.length : ℚ) else 0) =
    ((slides.map contentWordCount).sum : ℚ) / (slides.length : ℚ)
  rcases Nat.eq_zero_or_pos slides.length with h | h
  · rcases List.length_eq_zero.mp h
    simp
  · rw [if_pos h, statsStep_foldl_snd]
    norm_num

/-- C10: the bounds check of `add_chart` only rejects indices at or
above the slide count, so a negative index within `-len .. -1` together
with a valid chart type attaches the (non-empty) chart descriptor to the
existing slide at offset `len + slide_index`; index `-1` targets the
last slide. -/
theorem c10_negative_index (st : AgentState) (slide_index : Int)
    (chart_type : String) (data : Val)
    (h0 : -(st.slides.length : Int) ≤ slide_index) (h1 : slide_index < 0)
    (h2 : chartTypeNames.contains (pyUpper chart_type) = true) :
    addChart st slide_index chart_type data =
      some ({ st with slides := (st.slides.set
        ((st.slides.length : Int) + slide_index).toNat
        (dSet (st.slides.getD ((st.slides.length : Int) + slide_index).toNat []) "chart"
          (generateChart chart_type data st.theme ""))) }, true) ∧
    generateChart chart_type data st.theme "" ≠ Val.dict [] ∧
    (slide_index = -1 →
      ((st.slides.length : Int) + slide_index).toNat = st.slides.length - 1) := by
  have hnle : ¬ (st.slides.length : Int) ≤ slide_index := by omega
  refine ⟨?_, ?_, ?_⟩
  · have hpy : pyIdx st.slides.length slide_index =
        some ((st.slides.length : Int) + slide_index).toNat := by
      unfold pyIdx
      rw [if_neg (by omega), if_pos (by omega)]
    unfold addChart
    rw [if_neg hnle, hpy]
  · unfold generateChart
    rw [h2]
    simp
  · intro h
    omega

/-- Witness for C10: a two-slide deck, `slide_index = -1`, chart type
"bar"; the chart lands on the last slide. -/
theorem c10_witness :
    addChart ⟨"default", [[("id", Val.int 0)], [("id", Val.int 1)]], []⟩ (-1) "bar"
        Val.vnone =
      some ((⟨"default",
        (([[("id", Val.int 0)], [("id", Val.int 1)]] : List Dict).set
          (((([[("id", Val.int 0)], [("id", Val.int 1)]] : List Dict).length : Int) + -1).toNat)
          (dSet (([[("id", Val.int 0)], [("id", Val.int 1)]] : List Dict).getD
              (((([[("id", Val.int 0)], [("id", Val.int 1)]] : List Dict).length : Int) + -1).toNat) [])
            "chart" (generateChart "bar" Val.vnone "default" ""))), []⟩ : AgentState), true) ∧
    generateChart "bar" Val.vnone "default" "" ≠ Val.dict [] ∧
    ((-1 : Int) = -1 →
      ((([[("id", Val.int 0)], [("id", Val.int 1)]] : List Dict).length : Int) + -1).toNat =
        ([[("id", Val.int 0)], [("id", Val.int 1)]] : List Dict).length - 1) :=
  c10_negative_index ⟨"default", [[("id", Val.int 0)], [("id", Val.int 1)]], []⟩ (-1) "bar"
    Val.vnone (by decide) (by decide) (by decide)

/-- Every layout name the advisor can return is a catalog entry. -/
theorem suggestLayout_mem_layoutNames (slide : Dict) :
    suggestLayout slide ∈ layoutNames := by
  rcases ht : dGetD slide "type" (Val.str "content") with ts | ti | _ | tl | tt | td <;>
    rcases hc : dGetD slide "content" (Val.dict []) with cs | ci | _ | cl | ct2 | cd <;>
    simp only [suggestLayout, ht, hc] <;>
    split_ifs <;> decide

/-- C8: every layout name `suggest_layout` can return names an entry of
the six-entry layout catalog, and hence the `layout` field assigned to
every slide during `create_from_text` names a catalog entry. -/
theorem c8_layouts_in_catalog :
    (∀ slide, suggestLayout slide ∈ layoutNames) ∧
    (∀ st title sections sp i,
      i < (createFromText st title sections sp).slides.length →
      ∃ l, dGet ((createFromText st title sections sp).slides.getD i []) "layout" =
          some (Val.str l) ∧ l ∈ layoutNames) := by
  refine ⟨suggestLayout_mem_layoutNames, ?_⟩
  intro st title sections sp i hi
  cases sp with
  | false =>
    simp only [createFromText, Bool.false_eq_true, if_false] at hi ⊢
    have hi2 : i < (generateSlidesFromText title sections).length := by
      simpa using hi
    rw [List.getD_eq_getElem _ _ hi]
    simp only [List.getElem_map]
    exact ⟨suggestLayout _, dGet_dSet_self _ _ _, suggestLayout_mem_layoutNames _⟩
  | true =>
    simp only [createFromText, if_true] at hi ⊢
    have hi2 : i < (generateSlidesFromText title sections).length := by
      simpa using hi
    rw [List.getD_eq_getElem _ _ hi]
    simp only [List.getElem_map]
    refine ⟨suggestLayout (generateSlidesFromText title sections)[i], ?_,
      suggestLayout_mem_layoutNames _⟩
    rw [dGet_dSet_ne _ _ _ _ (by decide), dGet_dSet_self]

/-- Witness for C8's `create_from_text` part: slide 1 of a one-section
deck built from scratch carries a catalog layout name. -/
theorem c8_witness :
    ∃ l, dGet ((createFromText (initAgent "default") "T" ["SecA\npoint"] true).slides.getD
        1 []) "layout" = some (Val.str l) ∧ l ∈ layoutNames :=
  c8_layouts_in_catalog.2 (initAgent "default") "T" ["SecA\npoint"] true 1 (by decide)
